import Mathlib

/-!
Verification of the language-server lifecycle of the OxideKit VS Code extension
and binary-discovery subsystem (src/extension.ts).

The embedding models the environment the extension observes (configuration,
workspace folders, filesystem stats, the PATH lookup command) as a record of
pure query functions, and the observable effects of the extension (notifications,
client process starts/stops, registrations) as an explicit event log carried
in an extension state record.  The functions `findOxideLspT`,
`startLspClient`, `deactivate`, `restartLsp` and `activate` are direct
transcriptions of the TypeScript functions of the same names.
-/

set_option autoImplicit false

/-- The environment observed by the extension during resolution.
`configuredPath` is `config.get<string>("lsp.path")` (`none` = undefined);
`workspaceFolders` is `vscode.workspace.workspaceFolders` (`none` = undefined,
each entry a folder `uri.fsPath`); `statOk p` is whether
`vscode.workspace.fs.stat` succeeds on `p`; `isWin32` is
`process.platform === "win32"`; `execOut cmd` is the stdout of
`execSync(cmd)` (`none` = the command threw, i.e. non-zero exit). -/
structure Env where
  configuredPath : Option String
  workspaceFolders : Option (List String)
  extensionPath : String
  statOk : String → Bool
  isWin32 : Bool
  execOut : String → Option String

/-- JS falsiness of a `string | undefined` value: `undefined` and `""` are
falsy.  This is the `if (!serverPath)` test in `startLspClient`. -/
def jsFalsyOpt : Option String → Bool
  | none => true
  | some s => s.isEmpty

/-- `path.join(folder, "target", "release", "oxide-lsp")` (POSIX separator). -/
def releasePath (root : String) : String :=
  root ++ "/target/release/oxide-lsp"

/-- `path.join(folder, "target", "debug", "oxide-lsp")` (POSIX separator). -/
def debugPath (root : String) : String :=
  root ++ "/target/debug/oxide-lsp"

/-- The `localPaths` array built per workspace folder in `findOxideLsp`:
release build path first, then debug build path. -/
def localPaths (root : String) : List String :=
  [releasePath root, debugPath root]

/-- `path.join(context.extensionPath, "bin", "oxide-lsp")`. -/
def bundledPath (env : Env) : String :=
  env.extensionPath ++ "/bin/oxide-lsp"

/-- `process.platform === "win32" ? "where" : "which"`. -/
def whichCommand (env : Env) : String :=
  if env.isWin32 then "where" else "which"

/-- The command string passed to `execSync`. -/
def lookupCmd (env : Env) : String :=
  whichCommand env ++ " oxide-lsp"

/-- A read-only probe performed during discovery: a filesystem stat on a
candidate path, or the execution of the PATH lookup command. -/
inductive Probe where
  | stat (p : String)
  | exec (cmd : String)
deriving Repr, DecidableEq

/-- The inner `for (const localPath of localPaths)` loop of `findOxideLsp`:
stat each path in order, return the first that exists; a failed stat is
caught and the loop continues.  Also records the stats performed. -/
def probeLocalPaths (ok : String → Bool) : List String → Option String × List Probe
  | [] => (none, [])
  | p :: rest =>
    if ok p then (some p, [Probe.stat p])
    else
      let (r, t) := probeLocalPaths ok rest
      (r, Probe.stat p :: t)

/-- The outer `for (const folder of workspaceFolders)` loop of `findOxideLsp`:
probe the local paths of each folder in folder order, first hit wins. -/
def probeFolders (ok : String → Bool) : List String → Option String × List Probe
  | [] => (none, [])
  | f :: rest =>
    match probeLocalPaths ok (localPaths f) with
    | (some p, t) => (some p, t)
    | (none, t) =>
      let (r, t2) := probeFolders ok rest
      (r, t ++ t2)

/-- `result.trim()` in the PATH tier: drop whitespace from both ends
(modelled over the character list with ASCII whitespace). -/
def jsTrim (s : String) : String :=
  String.mk
    (((s.data.dropWhile Char.isWhitespace).reverse.dropWhile Char.isWhitespace).reverse)

/-- The characters before the first newline (the whole list when there is
none): `split("\n")[0]` on the character level.  On the empty string this is
the empty string, as in JS where `"".split("\n")[0]` is `""`. -/
def firstLineChars : List Char → List Char
  | [] => []
  | c :: rest => if c = '\n' then [] else c :: firstLineChars rest

/-- `result.trim().split("\n")[0]`: first line of the trimmed output. -/
def firstLineOfTrimmed (out : String) : String :=
  String.mk (firstLineChars (jsTrim out).data)

/-- The PATH tier of `findOxideLsp`: run the platform-appropriate lookup
command via `execSync`; on success return the first line of the trimmed
output, on a thrown error (non-zero exit) fall through to not-found. -/
def tryPathLookup (env : Env) : Option String × List Probe :=
  match env.execOut (lookupCmd env) with
  | some out => (some (firstLineOfTrimmed out), [Probe.exec (lookupCmd env)])
  | none => (none, [Probe.exec (lookupCmd env)])

/-- `findOxideLsp(context)` with its probe trace: workspace-local build
outputs first (release before debug, folder order respected), then the
bundled binary, then the system PATH lookup; `none` when nothing is found. -/
def findOxideLspT (env : Env) : Option String × List Probe :=
  let ws : Option String × List Probe :=
    match env.workspaceFolders with
    | some folders => probeFolders env.statOk folders
    | none => (none, [])
  match ws with
  | (some p, t) => (some p, t)
  | (none, t) =>
    if env.statOk (bundledPath env) then
      (some (bundledPath env), t ++ [Probe.stat (bundledPath env)])
    else
      let (r, t2) := tryPathLookup env
      (r, t ++ [Probe.stat (bundledPath env)] ++ t2)

/-- `findOxideLsp(context)`: the resolved path only. -/
def findOxideLsp (env : Env) : Option String :=
  (findOxideLspT env).1

/-- The resolution prefix of `startLspClient`: take the configured
`oxidekit.lsp.path` if truthy (no existence check), otherwise fall back to
`findOxideLsp`; paired with the probe trace. -/
def resolveServerPathT (env : Env) : Option String × List Probe :=
  match env.configuredPath with
  | some s => if s.isEmpty then findOxideLspT env else (some s, [])
  | none => findOxideLspT env

/-- The resolved server path (or `none`). -/
def resolveServerPath (env : Env) : Option String :=
  (resolveServerPathT env).1

/-- First element of a list satisfying `ok`, in order. -/
def firstHit (ok : String → Bool) : List String → Option String
  | [] => none
  | p :: rest => if ok p then some p else firstHit ok rest

/-- The prefix of a list up to and including the first element satisfying
`ok` (the whole list when no element does). -/
def takeThrough (ok : String → Bool) : List String → List String
  | [] => []
  | p :: rest => if ok p then [p] else p :: takeThrough ok rest

/-- The ordered workspace-tier candidates: each folder contributes its
release path then its debug path, folders in order. -/
def wsCandidates : List String → List String
  | [] => []
  | f :: rest => localPaths f ++ wsCandidates rest

/-- All stat-probed candidates in order: workspace-tier candidates, then the
bundled binary path. -/
def statCandidates (env : Env) : List String :=
  wsCandidates (env.workspaceFolders.getD []) ++ [bundledPath env]

example :
    findOxideLsp
      { configuredPath := none
        workspaceFolders := some ["/proj"]
        extensionPath := "/ext"
        statOk := fun p => p == "/proj/target/debug/oxide-lsp"
        isWin32 := false
        execOut := fun _ => none } = some "/proj/target/debug/oxide-lsp" := by
  decide

example :
    resolveServerPathT
      { configuredPath := some "/custom/lsp"
        workspaceFolders := some ["/proj"]
        extensionPath := "/ext"
        statOk := fun _ => false
        isWin32 := false
        execOut := fun _ => none } = (some "/custom/lsp", []) := by
  decide

/-- A user-visible or process-visible effect of the extension, recorded in
order in the log of the extension state. -/
inductive Event where
  | warningShown (msg : String)
  | infoShown (msg : String)
  | clientCreated (cmd : String)
  | clientProcStarted (cmd : String)
  | clientProcStopped (cmd : String)
  | terminalDisposed (name : String)
  | commandRegistered (name : String)
  | treeViewRegistered (name : String)
deriving Repr, DecidableEq

/-- The model of a `LanguageClient`: the server command it was configured
with, whether the server process is currently running, and bookkeeping
counters for how often `start()` and `stop()` were invoked on it. -/
structure Client where
  command : String
  running : Bool
  startCalls : Nat
  stopCalls : Nat
deriving Repr, DecidableEq

/-- `client.stop()`: stopping a running client stops the server process (an
observable event); stopping an already-stopped client returns early with no
observable effect (vscode-languageclient returns immediately when the state
is already stopped).  The invocation counter is bumped either way. -/
def Client.stopM (c : Client) : Client × List Event :=
  if c.running then
    ({ c with running := false, stopCalls := c.stopCalls + 1 },
     [Event.clientProcStopped c.command])
  else
    ({ c with stopCalls := c.stopCalls + 1 }, [])

/-- `client.start()`: starting a non-running client launches the server
process (an observable event); starting an already-running client has no
observable effect.  The invocation counter is bumped either way. -/
def Client.startM (c : Client) : Client × List Event :=
  if c.running then
    ({ c with startCalls := c.startCalls + 1 }, [])
  else
    ({ c with running := true, startCalls := c.startCalls + 1 },
     [Event.clientProcStarted c.command])

/-- A `vscode.Terminal`: disposal is idempotent in the host API. -/
structure Terminal where
  name : String
  disposed : Bool
deriving Repr, DecidableEq

/-- The module-level mutable state of extension.ts (`client`,
`devServerTerminal`) together with the ordered log of observable events. -/
structure ExtState where
  client : Option Client
  devServerTerminal : Option Terminal
  log : List Event
deriving Repr, DecidableEq

/-- The state at module load: no client, no terminal, nothing observed. -/
def initState : ExtState :=
  { client := none, devServerTerminal := none, log := [] }

/-- The warning shown by `startLspClient` when no binary resolves. -/
def lspMissingWarning : String :=
  "oxide-lsp not found. Some features will be unavailable. " ++
  "Install OxideKit CLI or set oxidekit.lsp.path in settings."

/-- The confirmation shown by `restartLsp`. -/
def restartMsg : String := "OxideKit language server restarted"

/-- `startLspClient(context)`: resolve the server path (configured value if
truthy, else `findOxideLsp`); if the result is falsy show one warning and
return without touching the client; otherwise build the transport config,
construct the `LanguageClient`, and start it. -/
def startLspClient (env : Env) (st : ExtState) : ExtState :=
  let sp := resolveServerPath env
  if jsFalsyOpt sp then
    { st with log := st.log ++ [Event.warningShown lspMissingWarning] }
  else
    let cmd := sp.getD ""
    let c0 : Client := { command := cmd, running := false, startCalls := 0, stopCalls := 0 }
    let (c1, evs) := c0.startM
    { st with
      client := some c1
      log := st.log ++ [Event.clientCreated cmd] ++ evs }

/-- Lines 49-51 of `deactivate`: `if (devServerTerminal) devServerTerminal.dispose()`.
The variable is not cleared; disposing an already-disposed terminal has no
observable effect. -/
def disposeDevTerminalStep (st : ExtState) : ExtState :=
  match st.devServerTerminal with
  | none => st
  | some t =>
    if t.disposed then st
    else
      { st with
        devServerTerminal := some { t with disposed := true }
        log := st.log ++ [Event.terminalDisposed t.name] }

/-- Lines 54-56 of `deactivate`: `if (client) await client.stop()`.
The `client` variable is not cleared afterwards. -/
def stopClientStep (st : ExtState) : ExtState :=
  match st.client with
  | none => st
  | some c =>
    let (c2, evs) := c.stopM
    { st with client := some c2, log := st.log ++ evs }

/-- `deactivate()`: dispose the dev-server terminal if present, then stop the
LSP client if present. -/
def deactivate (st : ExtState) : ExtState :=
  stopClientStep (disposeDevTerminalStep st)

/-- `restartLsp()`: if a client exists, stop it, start it again (same
`LanguageClient`, hence the same resolved command), and show one confirmation
message; if no client exists, do nothing. -/
def restartLsp (st : ExtState) : ExtState :=
  match st.client with
  | none => st
  | some c =>
    let (c2, evs1) := c.stopM
    let (c3, evs2) := c2.startM
    { st with
      client := some c3
      log := st.log ++ evs1 ++ evs2 ++ [Event.infoShown restartMsg] }

/-- The command ids registered by `registerCommands`, in registration order. -/
def commandNames : List String :=
  ["oxidekit.startDevServer", "oxidekit.stopDevServer",
   "oxidekit.buildDesktop", "oxidekit.buildStatic",
   "oxidekit.validateProject", "oxidekit.addPlugin", "oxidekit.newPlugin",
   "oxidekit.i18nCheck", "oxidekit.figmaImport", "oxidekit.restartLsp",
   "oxidekit.showPreview", "oxidekit.showTokenExplorer",
   "oxidekit.createComponent", "oxidekit.extractComponent",
   "oxidekit.wrapWithContainer", "oxidekit.wrapWithColumn",
   "oxidekit.wrapWithRow", "oxidekit.showMigrationGuide"]

/-- `registerCommands(context)`. -/
def registerCommands (st : ExtState) : ExtState :=
  { st with log := st.log ++ commandNames.map Event.commandRegistered }

/-- The tree-view ids registered by `registerTreeViews`, in order. -/
def treeViewNames : List String :=
  ["oxidekit-components", "oxidekit-tokens", "oxidekit-i18n"]

/-- `registerTreeViews(context)`. -/
def registerTreeViews (st : ExtState) : ExtState :=
  { st with log := st.log ++ treeViewNames.map Event.treeViewRegistered }

/-- `activate(context)`: start the LSP client, then register commands, then
register tree views.  Total by construction: it always returns a state. -/
def activate (env : Env) (st : ExtState) : ExtState :=
  registerTreeViews (registerCommands (startLspClient env st))

/-- The observable part of the extension state: the client command and
running flag (not its invocation counters), the terminal, and the event
log. -/
def ExtState.obs (st : ExtState) : Option (String × Bool) × Option Terminal × List Event :=
  (st.client.map (fun c => (c.command, c.running)), st.devServerTerminal, st.log)

theorem probeLocalPaths_eq (ok : String → Bool) (ps : List String) :
    probeLocalPaths ok ps = (firstHit ok ps, (takeThrough ok ps).map Probe.stat) := by
  induction ps with
  | nil => rfl
  | cons p rest ih =>
    by_cases h : ok p <;> simp [probeLocalPaths, firstHit, takeThrough, h, ih]

theorem takeThrough_eq_of_firstHit_none (ok : String → Bool) (xs : List String)
    (h : firstHit ok xs = none) : takeThrough ok xs = xs := by
  induction xs with
  | nil => rfl
  | cons x rest ih =>
    by_cases hx : ok x
    · simp [firstHit, hx] at h
    · simp [firstHit, hx] at h
      simp [takeThrough, hx, ih h]

theorem firstHit_append (ok : String → Bool) (xs ys : List String) :
    firstHit ok (xs ++ ys) =
      match firstHit ok xs with
      | some p => some p
      | none => firstHit ok ys := by
  induction xs with
  | nil => simp [firstHit]
  | cons x rest ih =>
    by_cases hx : ok x <;> simp [firstHit, hx, ih]

theorem takeThrough_append (ok : String → Bool) (xs ys : List String) :
    takeThrough ok (xs ++ ys) =
      match firstHit ok xs with
      | some _ => takeThrough ok xs
      | none => xs ++ takeThrough ok ys := by
  induction xs with
  | nil => simp [firstHit, takeThrough]
  | cons x rest ih =>
    by_cases hx : ok x
    · simp [takeThrough, firstHit, hx]
    · cases h : firstHit ok rest with
      | some p => simp [takeThrough, firstHit, hx, ih, h]
      | none => simp [takeThrough, firstHit, hx, ih, h]

theorem probeFolders_eq (ok : String → Bool) (fs : List String) :
    probeFolders ok fs =
      (firstHit ok (wsCandidates fs),
       (takeThrough ok (wsCandidates fs)).map Probe.stat) := by
  induction fs with
  | nil => rfl
  | cons f rest ih =>
    simp only [probeFolders, probeLocalPaths_eq, wsCandidates, ih,
      firstHit_append, takeThrough_append]
    cases h : firstHit ok (localPaths f) with
    | some p => simp
    | none => simp [takeThrough_eq_of_firstHit_none ok _ h]

/-- The single characterization of the whole resolver when no configured
path short-circuits it: the result is the first existing candidate in
`statCandidates` order (workspace release/debug paths in folder order, then
the bundled path), the stats performed are exactly the candidates up to and
including the first hit, and only when every stat fails is the PATH lookup
command executed, exactly once, last. -/
theorem resolveServerPathT_char (env : Env)
    (hc : jsFalsyOpt env.configuredPath = true) :
    resolveServerPathT env =
      match firstHit env.statOk (statCandidates env) with
      | some p => (some p, (takeThrough env.statOk (statCandidates env)).map Probe.stat)
      | none =>
        ((tryPathLookup env).1,
         (statCandidates env).map Probe.stat ++ [Probe.exec (lookupCmd env)]) := by
  have hfind : resolveServerPathT env = findOxideLspT env := by
    cases h : env.configuredPath with
    | none => simp [resolveServerPathT, h]
    | some s =>
      simp [jsFalsyOpt, h] at hc
      simp [resolveServerPathT, h, hc]
  rw [hfind]
  have hws :
      (match env.workspaceFolders with
        | some folders => probeFolders env.statOk folders
        | none => (none, [])) =
      (firstHit env.statOk (wsCandidates (env.workspaceFolders.getD [])),
       (takeThrough env.statOk (wsCandidates (env.workspaceFolders.getD []))).map
         Probe.stat) := by
    cases env.workspaceFolders with
    | none => simp [wsCandidates, firstHit, takeThrough]
    | some folders => simp [probeFolders_eq]
  rw [findOxideLspT, hws]
  simp only [statCandidates, firstHit_append, takeThrough_append]
  cases hw : firstHit env.statOk (wsCandidates (env.workspaceFolders.getD [])) with
  | some p => simp
  | none =>
    have htk := takeThrough_eq_of_firstHit_none env.statOk _ hw
    by_cases hb : env.statOk (bundledPath env)
    · simp [firstHit, takeThrough, hb, htk]
    · simp [firstHit, takeThrough, hb, htk, tryPathLookup]
      cases env.execOut (lookupCmd env) <;> simp

theorem firstHit_eq_none_of_all (ok : String → Bool) (xs : List String)
    (h : ∀ p, ok p = false) : firstHit ok xs = none := by
  induction xs with
  | nil => rfl
  | cons x rest ih => simp [firstHit, h x, ih]

/-- The spec scenario: workspace root "/proj" has the debug build output but
not the release one, nothing is configured, nothing is bundled, PATH fails. -/
def scenarioEnv : Env :=
  { configuredPath := none
    workspaceFolders := some ["/proj"]
    extensionPath := "/ext"
    statOk := fun p => p == "/proj/target/debug/oxide-lsp"
    isWin32 := false
    execOut := fun _ => none }

/-- An environment where nothing resolves anywhere. -/
def noEnv : Env :=
  { configuredPath := none
    workspaceFolders := some ["/a", "/b"]
    extensionPath := "/ext"
    statOk := fun _ => false
    isWin32 := false
    execOut := fun _ => none }

/-- C1: resolution tries candidates in strict order and returns the first
match without checking further candidates.  With no truthy configured path,
the resolver result is the first existing path of `statCandidates env`
(per root the release path then the debug path, roots in order, then the
bundled path), the stat probes performed are exactly the candidates up to
and including that first hit, and only when every stat fails is the PATH
lookup executed, after all stats.  In particular the spec scenario resolves
to the debug build under "/proj". -/
theorem resolve_candidate_order :
    (∀ env : Env, jsFalsyOpt env.configuredPath = true →
      resolveServerPathT env =
        match firstHit env.statOk (statCandidates env) with
        | some p =>
          (some p, (takeThrough env.statOk (statCandidates env)).map Probe.stat)
        | none =>
          ((tryPathLookup env).1,
           (statCandidates env).map Probe.stat ++ [Probe.exec (lookupCmd env)])) ∧
    resolveServerPath scenarioEnv = some "/proj/target/debug/oxide-lsp" := by
  refine ⟨fun env hc => resolveServerPathT_char env hc, ?_⟩
  decide

/-- Witness for C1 at the spec scenario: the hypothesis holds there and the
characterization instantiates to the concrete debug path, reached after
statting (and missing) the release path first. -/
theorem resolve_candidate_order_witness :
    jsFalsyOpt scenarioEnv.configuredPath = true ∧
    resolveServerPathT scenarioEnv =
      (some "/proj/target/debug/oxide-lsp",
       [Probe.stat "/proj/target/release/oxide-lsp",
        Probe.stat "/proj/target/debug/oxide-lsp"]) :=
  ⟨by decide, ((resolve_candidate_order.1 scenarioEnv (by decide)).trans (by decide))⟩

/-- An environment with a configured path that does not exist on disk. -/
def cfgEnv : Env :=
  { configuredPath := some "/no/such/file"
    workspaceFolders := some ["/proj"]
    extensionPath := "/ext"
    statOk := fun _ => false
    isWin32 := false
    execOut := fun _ => none }

/-- C2: a non-empty configured path is returned unconditionally: the probe
trace is empty, so no stat is performed on it (or on anything else) and no
other candidate tier is consulted, whatever the filesystem looks like. -/
theorem configured_path_trusted (env : Env) (s : String)
    (h1 : env.configuredPath = some s) (h2 : s.isEmpty = false) :
    resolveServerPathT env = (some s, []) := by
  simp [resolveServerPathT, h1, h2]

/-- Witness for C2: a configured path that exists nowhere on disk is still
returned as-is, with no probes at all. -/
theorem configured_path_trusted_witness :
    cfgEnv.configuredPath = some "/no/such/file" ∧
    cfgEnv.statOk "/no/such/file" = false ∧
    resolveServerPathT cfgEnv = (some "/no/such/file", []) :=
  ⟨by decide, by decide, configured_path_trusted cfgEnv "/no/such/file" rfl (by decide)⟩

/-- C3: when no candidate in any tier exists (no truthy configured path,
every stat fails, the PATH lookup command exits non-zero) the resolver
returns `none`, and its trace shows every candidate was still probed in
turn: each per-candidate failure is swallowed and the search moves on
instead of aborting.  The resolver is a total function, so no outcome
raises. -/
theorem resolve_absent_total (env : Env)
    (hc : jsFalsyOpt env.configuredPath = true)
    (hs : ∀ p, env.statOk p = false)
    (he : env.execOut (lookupCmd env) = none) :
    resolveServerPathT env =
      (none, (statCandidates env).map Probe.stat ++ [Probe.exec (lookupCmd env)]) := by
  have h := resolveServerPathT_char env hc
  rw [firstHit_eq_none_of_all env.statOk _ hs] at h
  rw [h]
  simp [tryPathLookup, he]

/-- Witness for C3: with two workspace roots, no bundled binary and a
failing PATH lookup, resolution returns `none` after probing all five
candidates. -/
theorem resolve_absent_total_witness :
    resolveServerPathT noEnv =
      (none, (statCandidates noEnv).map Probe.stat ++ [Probe.exec (lookupCmd noEnv)]) :=
  resolve_absent_total noEnv (by decide) (fun _ => rfl) rfl

/-- An environment where only the PATH lookup succeeds. -/
def pathEnv : Env :=
  { configuredPath := none
    workspaceFolders := none
    extensionPath := "/ext"
    statOk := fun _ => false
    isWin32 := false
    execOut := fun cmd =>
      if cmd == "which oxide-lsp" then some "/usr/bin/oxide-lsp\n" else none }

/-- C8: the PATH tier runs the platform-appropriate lookup command
("where" on win32, "which" elsewhere); on success the first line of the
trimmed output is the result; a non-zero exit (the command throwing) yields
not-found rather than an error; and a successful but empty output is also
treated as not found downstream, because the empty string is falsy in the
`if (!serverPath)` check, so the client stays absent and only the warning is
shown. -/
theorem path_lookup_tier (env : Env)
    (hc : jsFalsyOpt env.configuredPath = true)
    (hs : ∀ p, env.statOk p = false) :
    lookupCmd env = (if env.isWin32 then "where" else "which") ++ " oxide-lsp" ∧
    (resolveServerPathT env).2 =
      (statCandidates env).map Probe.stat ++ [Probe.exec (lookupCmd env)] ∧
    (∀ out, env.execOut (lookupCmd env) = some out →
      resolveServerPath env = some (firstLineOfTrimmed out)) ∧
    (env.execOut (lookupCmd env) = none → resolveServerPath env = none) ∧
    (∀ (out : String) (st : ExtState),
      env.execOut (lookupCmd env) = some out → jsTrim out = "" →
      (startLspClient env st).client = st.client ∧
      (startLspClient env st).log = st.log ++ [Event.warningShown lspMissingWarning]) := by
  have h := resolveServerPathT_char env hc
  rw [firstHit_eq_none_of_all env.statOk _ hs] at h
  refine ⟨rfl, ?_, ?_, ?_, ?_⟩
  · rw [h]
  · intro out ho
    simp [resolveServerPath, h, tryPathLookup, ho]
  · intro ho
    simp [resolveServerPath, h, tryPathLookup, ho]
  · intro out st ho ht
    have hr : resolveServerPath env = some "" := by
      simp [resolveServerPath, h, tryPathLookup, ho, firstLineOfTrimmed, ht,
        firstLineChars]
    have hemp : ("" : String).isEmpty = true := rfl
    constructor <;> simp [startLspClient, hr, jsFalsyOpt, hemp]

/-- Witness for C8: with all stats failing, the lookup command is
`which oxide-lsp`, and its output "/usr/bin/oxide-lsp\n" resolves, trimmed,
to "/usr/bin/oxide-lsp". -/
theorem path_lookup_tier_witness :
    lookupCmd pathEnv = "which oxide-lsp" ∧
    resolveServerPath pathEnv = some "/usr/bin/oxide-lsp" := by
  have h := path_lookup_tier pathEnv (by decide) (fun _ => rfl)
  exact ⟨h.1.trans (by decide),
    (h.2.2.1 "/usr/bin/oxide-lsp\n" (by decide)).trans (by decide)⟩

/-- C4: starting with an absent resolved path leaves the client handle
untouched (absent stays absent), appends exactly one warning notification to
the log, and performs no spawn: the log delta contains no client-created and
no process-started event, and no transport config is built because the
client construction branch is never reached. -/
theorem start_absent_degraded (env : Env) (st : ExtState)
    (h : jsFalsyOpt (resolveServerPath env) = true) :
    (startLspClient env st).client = st.client ∧
    (startLspClient env st).devServerTerminal = st.devServerTerminal ∧
    (startLspClient env st).log = st.log ++ [Event.warningShown lspMissingWarning] := by
  refine ⟨?_, ?_, ?_⟩ <;> simp [startLspClient, h]

/-- Witness for C4: in the all-absent environment, starting from the fresh
state shows the warning once and leaves the client absent. -/
theorem start_absent_degraded_witness :
    jsFalsyOpt (resolveServerPath noEnv) = true ∧
    (startLspClient noEnv initState).client = none ∧
    (startLspClient noEnv initState).log = [Event.warningShown lspMissingWarning] := by
  have h := start_absent_degraded noEnv initState (by decide)
  exact ⟨by decide, h.1, h.2.2⟩

/-- C5: stopping is idempotent.  Running `deactivate` twice yields the same
observable state (same client command and running flag, same terminal, same
event log) as running it once — the second call adds no observable side
effect — and when the client handle is already absent the client-stopping
step of `deactivate` is the identity, not an error. -/
theorem stop_idempotent :
    (∀ st : ExtState, (deactivate (deactivate st)).obs = (deactivate st).obs) ∧
    (∀ st : ExtState, st.client = none → stopClientStep st = st) := by
  constructor
  · intro st
    rcases st with ⟨cl, term, log⟩
    rcases cl with _ | ⟨cmd, run, sc, tc⟩
    · rcases term with _ | ⟨nm, d⟩
      · rfl
      · cases d <;>
          simp [deactivate, disposeDevTerminalStep, stopClientStep, ExtState.obs]
    · rcases term with _ | ⟨nm, d⟩
      · cases run <;>
          simp [deactivate, disposeDevTerminalStep, stopClientStep, Client.stopM,
            ExtState.obs]
      · cases run <;> cases d <;>
          simp [deactivate, disposeDevTerminalStep, stopClientStep, Client.stopM,
            ExtState.obs]
  · intro st h
    simp [stopClientStep, h]

/-- A state with a running client, as left behind by a successful start. -/
def runningState : ExtState :=
  { client := some { command := "/usr/bin/oxide-lsp", running := true,
                     startCalls := 1, stopCalls := 0 }
    devServerTerminal := none
    log := [] }

/-- Witness for C5: a second `deactivate` after stopping a running client is
observably a no-op, and the stop step on the fresh (client-less) state is the
identity. -/
theorem stop_idempotent_witness :
    (deactivate (deactivate runningState)).obs = (deactivate runningState).obs ∧
    stopClientStep initState = initState :=
  ⟨stop_idempotent.1 runningState, stop_idempotent.2 initState rfl⟩

/-- C6: restarting with a running handle performs exactly one stop followed
by exactly one start on the same client (hence with the same previously
resolved command), ends running, and emits exactly one notification — the
confirmation — after the stop and start events. -/
theorem restart_running (st : ExtState) (c : Client)
    (hc : st.client = some c) (hr : c.running = true) :
    restartLsp st =
      { st with
        client := some { command := c.command, running := true,
                         startCalls := c.startCalls + 1, stopCalls := c.stopCalls + 1 }
        log := st.log ++ [Event.clientProcStopped c.command,
                          Event.clientProcStarted c.command,
                          Event.infoShown restartMsg] } := by
  obtain ⟨cmd, run, sc, tc⟩ := c
  simp only at hr
  subst hr
  simp [restartLsp, hc, Client.stopM, Client.startM]

/-- Witness for C6: restarting the running state stops then starts the same
command and logs one confirmation, in that order. -/
theorem restart_running_witness :
    restartLsp runningState =
      { client := some { command := "/usr/bin/oxide-lsp", running := true,
                         startCalls := 2, stopCalls := 1 }
        devServerTerminal := none
        log := [Event.clientProcStopped "/usr/bin/oxide-lsp",
                Event.clientProcStarted "/usr/bin/oxide-lsp",
                Event.infoShown restartMsg] } :=
  (restart_running runningState _ rfl rfl).trans (by decide)

/-- C7: restarting when no client handle exists is a no-op: the state is
returned unchanged, so there is no stop, no start, and no notification. -/
theorem restart_no_handle (st : ExtState) (h : st.client = none) :
    restartLsp st = st := by
  simp [restartLsp, h]

/-- Witness for C7: restarting from the fresh state (resolution never
produced a client) changes nothing. -/
theorem restart_no_handle_witness : restartLsp initState = initState :=
  restart_no_handle initState rfl

/-- C9: activation always completes.  `activate` is a total function whose
log always ends with the full command and tree-view registrations, whatever
resolution did; and when resolution fails the activation from the fresh
state ends with no client, exactly one warning, and every registration still
performed — degraded mode, with nothing re-thrown to the host. -/
theorem activation_completes_degraded :
    (∀ (env : Env) (st : ExtState),
      (activate env st).log =
        (startLspClient env st).log ++
        commandNames.map Event.commandRegistered ++
        treeViewNames.map Event.treeViewRegistered) ∧
    (∀ env : Env, jsFalsyOpt (resolveServerPath env) = true →
      activate env initState =
        { client := none
          devServerTerminal := none
          log := Event.warningShown lspMissingWarning ::
                 (commandNames.map Event.commandRegistered ++
                  treeViewNames.map Event.treeViewRegistered) }) := by
  constructor
  · intro env st
    simp [activate, registerCommands, registerTreeViews]
  · intro env h
    simp [activate, registerCommands, registerTreeViews, startLspClient, h, initState]

/-- Witness for C9: in the all-absent environment, activation still
registers every command and tree view after the single warning. -/
theorem activation_completes_degraded_witness :
    jsFalsyOpt (resolveServerPath noEnv) = true ∧
    activate noEnv initState =
      { client := none
        devServerTerminal := none
        log := Event.warningShown lspMissingWarning ::
               (commandNames.map Event.commandRegistered ++
                treeViewNames.map Event.treeViewRegistered) } :=
  ⟨by decide, activation_completes_degraded.2 noEnv (by decide)⟩

/-- An environment whose configured path resolves immediately. -/
def okEnv : Env :=
  { configuredPath := some "/usr/bin/oxide-lsp"
    workspaceFolders := none
    extensionPath := "/ext"
    statOk := fun _ => false
    isWin32 := false
    execOut := fun _ => none }

/-- C10: once the client has been started, the module-level handle is never
reset to absent.  After a successful start, `deactivate` stops the client
but keeps the reference; a second `deactivate` finds the reference still set
and invokes stop on the already-stopped client again (its stop-call counter
reaches 2); and a restart issued after deactivation still finds the
reference, performs a stop and a start on the stopped client, leaves it
running, and shows the confirmation — it is not a no-op. -/
theorem client_ref_persists (env : Env)
    (h : jsFalsyOpt (resolveServerPath env) = false) :
    (deactivate (startLspClient env initState)).client =
      some { command := (resolveServerPath env).getD "", running := false,
             startCalls := 1, stopCalls := 1 } ∧
    (deactivate (deactivate (startLspClient env initState))).client =
      some { command := (resolveServerPath env).getD "", running := false,
             startCalls := 1, stopCalls := 2 } ∧
    restartLsp (deactivate (startLspClient env initState)) =
      { client := some { command := (resolveServerPath env).getD "", running := true,
                         startCalls := 2, stopCalls := 2 }
        devServerTerminal := none
        log := [Event.clientCreated ((resolveServerPath env).getD ""),
                Event.clientProcStarted ((resolveServerPath env).getD ""),
                Event.clientProcStopped ((resolveServerPath env).getD ""),
                Event.clientProcStarted ((resolveServerPath env).getD ""),
                Event.infoShown restartMsg] } := by
  refine ⟨?_, ?_, ?_⟩ <;>
    simp [startLspClient, h, initState, deactivate, disposeDevTerminalStep,
      stopClientStep, restartLsp, Client.stopM, Client.startM]

/-- Witness for C10: with a configured binary, start then deactivate twice
keeps the handle set with two stop invocations recorded. -/
theorem client_ref_persists_witness :
    jsFalsyOpt (resolveServerPath okEnv) = false ∧
    (deactivate (deactivate (startLspClient okEnv initState))).client =
      some { command := "/usr/bin/oxide-lsp", running := false,
             startCalls := 1, stopCalls := 2 } :=
  ⟨by decide, ((client_ref_persists okEnv (by decide)).2.1).trans (by decide)⟩
